import Mathlib

/-
Verification development for the job-search-gmail-mcp repository.

The repository provides two MCP adapters:
  * src/gmail/server.py     — a Gmail adapter (class GmailService plus a
    tool dispatcher `handle_call_tool`),
  * src/theirstack/server.py — a job-search adapter (class JobStackAPI plus
    its own `handle_call_tool`).

This file gives a shallow embedding of the data model and the operations
those claims are about: the OAuth token lifecycle (`_get_token`), the
pagination loops (`get_unread_emails`, `search_by_label`, `search_emails`),
the folder move (`move_to_folder`), the job-search result shaping
(`JobStackAPI.search_jobs`), and the two tool dispatchers.  Remote I/O is
modelled by explicit response traces and effect counters; Python strings by
Lean `String` with character-list helpers that mirror the Python `str`
methods used by the source.
-/

/-! ## Python string helpers

The dispatcher's subject-override logic (src/gmail/server.py lines
1316-1321) uses `str.split('\n')`, `str.startswith`, slicing `[8:]`,
`'\n'.join` and `str.strip()`.  The helpers below implement these Python
methods on Lean strings via structurally recursive character-list
operations (so that concrete instances evaluate inside the kernel).
`pyIsSpace` covers the ASCII whitespace characters stripped by
`str.strip()`. -/

def pyIsSpace (c : Char) : Bool :=
  c = ' ' || c = '\t' || c = '\n' || c = '\r' || c = '\x0b' || c = '\x0c'

/-- Python `s.strip()`: remove leading and trailing whitespace. -/
def pyStrip (s : String) : String :=
  ⟨((s.toList.dropWhile pyIsSpace).reverse.dropWhile pyIsSpace).reverse⟩

/-- Split a character list at every newline character, Python-style:
the result always has one more block than there are newlines, so
`splitNlAux []` is `[[]]` (Python: `''.split('\n') == ['']`). -/
def splitNlAux : List Char → List (List Char)
  | [] => [[]]
  | c :: cs =>
    let r := splitNlAux cs
    if c = '\n' then [] :: r
    else match r with
      | [] => [[c]]
      | l :: ls => (c :: l) :: ls

/-- Python `s.split('\n')`. -/
def pySplitLines (s : String) : List String := (splitNlAux s.toList).map String.mk

/-- Python `s.startswith(pre)`. -/
def pyStartsWith (s pre : String) : Bool := pre.toList.isPrefixOf s.toList

/-- Python `s[n:]` (drop the first `n` characters). -/
def pyDrop (s : String) (n : Nat) : String := ⟨s.toList.drop n⟩

/-- Python `'\n'.join(ls)`. -/
def pyJoinNl (ls : List String) : String :=
  ⟨List.intercalate ['\n'] (ls.map String.toList)⟩

/-! ## Tool-call argument values

A tool call carries a string-keyed argument mapping whose values are
JSON-shaped (string / number / boolean / array, per the registered input
schemas).  `truthy` mirrors Python truthiness (`if not x: ...`), which both
dispatchers use to validate required arguments; `missingOrEmpty` is the
claims' notion of an absent key or an empty value. -/

inductive JVal where
  | str (s : String)
  | num (n : Int)
  | bool (b : Bool)
  | arr (l : List JVal)

/-- Python truthiness of an optional argument value: `None`, `''`, `0`,
`False` and `[]` are falsy, everything else is truthy. -/
def truthy : Option JVal → Bool
  | none => false
  | some (.str s) => !(s == "")
  | some (.num n) => !(n == 0)
  | some (.bool b) => b
  | some (.arr l) => !l.isEmpty

/-- A required argument is violated when the key is absent from the mapping
or its value is empty (the empty string or the empty array). -/
def missingOrEmpty : Option JVal → Bool
  | none => true
  | some (.str s) => s == ""
  | some (.arr l) => l.isEmpty
  | some (.num _) => false
  | some (.bool _) => false

/-- Argument lookup for a key that has already passed the truthiness check
(the dispatcher only reads such values after `if not x: raise`). -/
def getArg (args : String → Option JVal) (k : String) : JVal :=
  (args k).getD (.str "")

/-- The empty argument mapping. -/
def noArgs : String → Option JVal := fun _ => none

/-! ## Credential Store: GmailService._get_token

src/gmail/server.py lines 181-203.  The persisted token file is modelled
by an optional `OAuthToken`; `tag` distinguishes token values so that
"returns that token unchanged" is expressible.  `google.oauth2`
credentials are valid exactly when they carry an access token and are not
expired, so `isValid` is derived from those fields.  Network activity and
file writes are recorded in `TokenEffects`: `refreshCalls` counts
`token.refresh(Request())` calls, `consentFlowRuns` counts
`InstalledAppFlow...run_local_server` runs, and `tokenWrites` lists the
tokens written back to the token file, in order. -/

structure OAuthToken where
  hasAccessToken : Bool
  expired : Bool
  hasRefreshToken : Bool
  tag : Nat
  deriving DecidableEq, Repr

def OAuthToken.isValid (t : OAuthToken) : Bool := t.hasAccessToken && !t.expired

structure TokenEffects where
  refreshCalls : Nat
  consentFlowRuns : Nat
  tokenWrites : List OAuthToken
  deriving DecidableEq, Repr

/-- GmailService._get_token.  `persisted` is the token loaded from the
token file (none when the file does not exist), `refreshOf` the token
produced by a refresh call, `consentToken` the token produced by the
interactive consent flow. -/
def getToken (persisted : Option OAuthToken) (refreshOf : OAuthToken → OAuthToken)
    (consentToken : OAuthToken) : OAuthToken × TokenEffects :=
  match persisted with
  | some t =>
    if !t.isValid then
      if t.expired && t.hasRefreshToken then
        (refreshOf t, ⟨1, 0, [refreshOf t]⟩)
      else
        (consentToken, ⟨0, 1, [consentToken]⟩)
    else
      (t, ⟨0, 0, []⟩)
  | none => (consentToken, ⟨0, 1, [consentToken]⟩)

/-! ## Pagination loops

A `messages().list` response either raises an HttpError or returns a page:
an optional `'messages'` item list (the key can be absent) and the
presence or absence of a `'nextPageToken'`.  A run of a list operation is
driven by the trace of successive provider responses.  `ListResult`
mirrors the possible outcomes of the Python functions: the returned
message list, the `"An HttpError occurred: ..."` error string from the
`except HttpError` handler, an uncaught KeyError (indexing
`response['messages']` on a page without that key), or the model-artifact
case of a trace that ends while another page was still announced. -/

structure ListPage where
  messages : Option (List String)
  hasNextPageToken : Bool
  deriving DecidableEq, Repr

inductive PageResponse where
  | http (err : String)
  | ok (page : ListPage)
  deriving DecidableEq, Repr

inductive ListResult where
  | msgs (l : List String)
  | errText (s : String)
  | raisedKeyError
  | truncatedTrace
  deriving DecidableEq, Repr

/-- The `while 'nextPageToken' in response` loop of
GmailService.get_unread_emails (lines 264-268): each continuation page is
extended with `response['messages']` WITHOUT the `'messages' in response`
guard, so a continuation page lacking the key raises KeyError. -/
def unreadLoop : List PageResponse → List String → ListResult
  | [], _ => .truncatedTrace
  | .http e :: _, _ => .errText ("An HttpError occurred: " ++ e)
  | .ok p :: rest, acc =>
    match p.messages with
    | none => .raisedKeyError
    | some ms =>
      if p.hasNextPageToken then unreadLoop rest (acc ++ ms) else .msgs (acc ++ ms)

/-- GmailService.get_unread_emails (lines 250-272): the first response is
guarded by `if 'messages' in response`, then the continuation loop runs. -/
def getUnreadEmails : List PageResponse → ListResult
  | [] => .truncatedTrace
  | .http e :: _ => .errText ("An HttpError occurred: " ++ e)
  | .ok p :: rest =>
    let acc := p.messages.getD []
    if p.hasNextPageToken then unreadLoop rest acc else .msgs acc

/-- The continuation loop of GmailService.search_by_label (lines 473-482);
the same shape as `unreadLoop`, including the unguarded
`response['messages']` on continuation pages. -/
def searchByLabelLoop : List PageResponse → List String → ListResult
  | [], _ => .truncatedTrace
  | .http e :: _, _ => .errText ("An HttpError occurred: " ++ e)
  | .ok p :: rest, acc =>
    match p.messages with
    | none => .raisedKeyError
    | some ms =>
      if p.hasNextPageToken then searchByLabelLoop rest (acc ++ ms) else .msgs (acc ++ ms)

/-- GmailService.search_by_label (lines 460-486). -/
def searchByLabel : List PageResponse → ListResult
  | [] => .truncatedTrace
  | .http e :: _ => .errText ("An HttpError occurred: " ++ e)
  | .ok p :: rest =>
    let acc := p.messages.getD []
    if p.hasNextPageToken then searchByLabelLoop rest acc else .msgs acc

/-- Build the response trace of an all-successful paginated listing from
its pages: every page carries its items under the `'messages'` key and
every page except the last carries a `'nextPageToken'`. -/
def mkTrace : List (List String) → List PageResponse
  | [] => []
  | [p] => [.ok ⟨some p, false⟩]
  | p :: rest => .ok ⟨some p, true⟩ :: mkTrace rest

/-! ## search_emails: capped pagination

GmailService.search_emails (lines 605-675).  The loop condition is
`'nextPageToken' in response and len(messages) < max_results`; both the
first page and continuation pages are guarded by
`if 'messages' in response`, and each accumulated message is then mapped
to a metadata record by one further `messages().get` call (modelled by
`meta`, which preserves count and order). -/

def searchLoop (maxResults : Nat) : List PageResponse → Bool → List String → ListResult
  | [], hasToken, acc =>
    if hasToken && decide (acc.length < maxResults) then .truncatedTrace else .msgs acc
  | r :: rest, hasToken, acc =>
    if hasToken && decide (acc.length < maxResults) then
      match r with
      | .http e => .errText ("An HttpError occurred: " ++ e)
      | .ok p => searchLoop maxResults rest p.hasNextPageToken (acc ++ p.messages.getD [])
    else .msgs acc

/-- GmailService.search_emails: first response, continuation loop, then
the per-message metadata mapping. -/
def searchEmails (meta : String → String) (responses : List PageResponse)
    (maxResults : Nat) : ListResult :=
  match responses with
  | [] => .truncatedTrace
  | .http e :: _ => .errText ("An HttpError occurred: " ++ e)
  | .ok p :: rest =>
    match searchLoop maxResults rest p.hasNextPageToken (p.messages.getD []) with
    | .msgs ms => .msgs (ms.map meta)
    | r => r

/-! ## move_to_folder: request trace and label semantics

GmailService.move_to_folder (lines 709-735) issues its
`messages().modify` call with the body
`{'addLabelIds': [folder_id], 'removeLabelIds': ['INBOX']}`.
`moveToFolderRequests` is the list of API requests the operation sends,
in order.  `applyModify` is the Gmail semantics of one modify request on a
message's label set (add the listed labels, then remove the listed
labels); `runRequests` executes a request list sequentially under a
per-request failure pattern, a failed request leaving the state
unchanged (the `except HttpError` handler performs no compensation). -/

inductive GmailRequest where
  | modifyMessage (emailId : String) (addLabelIds removeLabelIds : List String)
  deriving DecidableEq, Repr

def moveToFolderRequests (emailId folderId : String) : List GmailRequest :=
  [.modifyMessage emailId [folderId] ["INBOX"]]

def applyModify (labels : List String) : GmailRequest → List String
  | .modifyMessage _ addIds removeIds =>
    (labels ++ addIds.filter (fun l => l ∉ labels)).filter (fun l => l ∉ removeIds)

def runRequests (fails : Nat → Bool) : List GmailRequest → Nat → List String → List String
  | [], _, labels => labels
  | r :: rs, i, labels =>
    runRequests fails rs (i + 1) (if fails i then labels else applyModify labels r)

/-! ## JobStackAPI.search_jobs result shaping

src/theirstack/server.py lines 239-324.  On a 200 response the handler
extracts one compact record per entry of `raw_data["data"]` (`extract`
stands for `_extract_compact_job_listing`; its record contents do not
matter to the claims) and returns
`{"total_jobs": len(compact_jobs), "jobs": compact_jobs[:10], ...}`.
Absent `technologies` / `countries` fall back to `["greenhouse"]` /
`["IN"]` as in lines 248-251. -/

structure JobSearchResult (β : Type) where
  totalJobs : Nat
  jobs : List β
  technologies : List String
  countries : List String
  maxAgeDays : Int

def searchJobs {α β : Type} (extract : α → β)
    (technologies countries : Option (List String)) (maxAgeDays : Int)
    (dataJobs : List α) : JobSearchResult β :=
  let techs := if (technologies.getD []).isEmpty then ["greenhouse"] else technologies.getD []
  let ctrs := if (countries.getD []).isEmpty then ["IN"] else countries.getD []
  let compactJobs := dataJobs.map extract
  { totalJobs := compactJobs.length
    jobs := compactJobs.take 10
    technologies := techs
    countries := ctrs
    maxAgeDays := maxAgeDays }

/-! ## Tool dispatchers

`Outcome` is the result of one `handle_call_tool` run, stopped at the
point where a wrapper method would be invoked: a raised precondition
ValueError, the raised unknown-tool ValueError, the wrapper invocation
(with the argument values passed to it), or an uncaught non-ValueError
exception (reaching string methods on a non-string value). -/

inductive Outcome (κ : Type) where
  | error (msg : String)
  | unknown (msg : String)
  | invoked (call : κ)
  | raised

def isPreconditionError {κ : Type} : Outcome κ → Bool
  | .error _ => true
  | _ => false

def invokedCall {κ : Type} : Outcome κ → Option κ
  | .invoked c => some c
  | _ => none

/-- The GmailService wrapper methods, one constructor per operation, each
carrying the argument values the dispatcher passes. -/
inductive GmailCall where
  | sendEmail (recipient subject message : JVal)
  | getUnread
  | readEmail (emailId : JVal)
  | openEmail (emailId : JVal)
  | trashEmail (emailId : JVal)
  | markEmailAsRead (emailId : JVal)
  | createDraft (recipient subject message : JVal)
  | listDrafts
  | listLabels
  | createLabel (labelName : JVal)
  | applyLabel (emailId labelId : JVal)
  | removeLabel (emailId labelId : JVal)
  | searchByLabel (labelId : JVal)
  | listFilters
  | getFilter (filterId : JVal)
  | createFilter (fromEmail toEmail subject query hasAttachment excludeChats
      sizeComparison size addLabelIds removeLabelIds forwardTo : Option JVal)
  | deleteFilter (filterId : JVal)
  | searchEmails (query maxResults : JVal)
  | createFolder (folderName : JVal)
  | moveToFolder (emailId folderId : JVal)
  | listFolders

/-- The 21 tool names registered by the mail adapter's `handle_list_tools`
(src/gmail/server.py lines 945-1297). -/
def gmailToolNames : List String :=
  ["send-email", "trash-email", "get-unread-emails", "read-email",
   "mark-email-as-read", "open-email", "create-draft", "list-drafts",
   "list-labels", "create-label", "apply-label", "remove-label",
   "search-by-label", "list-filters", "get-filter", "create-filter",
   "delete-filter", "search-emails", "create-folder", "move-to-folder",
   "list-folders"]

/-- The `required` list of each registered mail tool's input schema
(the create-filter schema declares no `required` key). -/
def gmailRequiredArgs : String → List String
  | "send-email" => ["recipient_id", "subject", "message"]
  | "trash-email" => ["email_id"]
  | "get-unread-emails" => []
  | "read-email" => ["email_id"]
  | "mark-email-as-read" => ["email_id"]
  | "open-email" => ["email_id"]
  | "create-draft" => ["recipient_id", "subject", "message"]
  | "list-drafts" => []
  | "list-labels" => []
  | "create-label" => ["name"]
  | "apply-label" => ["email_id", "label_id"]
  | "remove-label" => ["email_id", "label_id"]
  | "search-by-label" => ["label_id"]
  | "list-filters" => []
  | "get-filter" => ["filter_id"]
  | "create-filter" => []
  | "delete-filter" => ["filter_id"]
  | "search-emails" => ["query"]
  | "create-folder" => ["name"]
  | "move-to-folder" => ["email_id", "folder_id"]
  | "list-folders" => []
  | _ => []

/-- The mail adapter's `handle_call_tool` (src/gmail/server.py lines
1299-1476), stopped at the wrapper invocation.  Branches appear in source
order; the send-email branch contains the subject-override logic of lines
1316-1321 (the create-draft branch has no such logic and passes the
supplied values through unchanged). -/
def dispatchGmail (name : String) (args : String → Option JVal) : Outcome GmailCall :=
  if name = "send-email" then
    if !truthy (args "recipient_id") then .error "Missing recipient parameter"
    else if !truthy (args "subject") then .error "Missing subject parameter"
    else if !truthy (args "message") then .error "Missing message parameter"
    else
      match getArg args "message" with
      | .str m =>
        let emailLines := pySplitLines m
        if pyStartsWith (emailLines.headD "") "Subject:" then
          .invoked (.sendEmail (getArg args "recipient_id")
            (.str (pyStrip (pyDrop (emailLines.headD "") 8)))
            (.str (pyStrip (pyJoinNl (emailLines.drop 1)))))
        else
          .invoked (.sendEmail (getArg args "recipient_id") (getArg args "subject") (.str m))
      | _ => .raised
  else if name = "get-unread-emails" then
    .invoked .getUnread
  else if name = "read-email" then
    if !truthy (args "email_id") then .error "Missing email ID parameter"
    else .invoked (.readEmail (getArg args "email_id"))
  else if name = "open-email" then
    if !truthy (args "email_id") then .error "Missing email ID parameter"
    else .invoked (.openEmail (getArg args "email_id"))
  else if name = "trash-email" then
    if !truthy (args "email_id") then .error "Missing email ID parameter"
    else .invoked (.trashEmail (getArg args "email_id"))
  else if name = "mark-email-as-read" then
    if !truthy (args "email_id") then .error "Missing email ID parameter"
    else .invoked (.markEmailAsRead (getArg args "email_id"))
  else if name = "create-draft" then
    if !truthy (args "recipient_id") || !truthy (args "subject") || !truthy (args "message") then
      .error "Missing required parameters for creating a draft"
    else
      .invoked (.createDraft (getArg args "recipient_id") (getArg args "subject")
        (getArg args "message"))
  else if name = "list-drafts" then
    .invoked .listDrafts
  else if name = "list-labels" then
    .invoked .listLabels
  else if name = "create-label" then
    if !truthy (args "name") then .error "Missing required parameter for creating a label"
    else .invoked (.createLabel (getArg args "name"))
  else if name = "apply-label" then
    if !truthy (args "email_id") || !truthy (args "label_id") then
      .error "Missing required parameters for applying a label"
    else .invoked (.applyLabel (getArg args "email_id") (getArg args "label_id"))
  else if name = "remove-label" then
    if !truthy (args "email_id") || !truthy (args "label_id") then
      .error "Missing required parameters for removing a label"
    else .invoked (.removeLabel (getArg args "email_id") (getArg args "label_id"))
  else if name = "search-by-label" then
    if !truthy (args "label_id") then .error "Missing required parameter for searching by label"
    else .invoked (.searchByLabel (getArg args "label_id"))
  else if name = "list-filters" then
    .invoked .listFilters
  else if name = "get-filter" then
    if !truthy (args "filter_id") then .error "Missing required parameter for getting a filter"
    else .invoked (.getFilter (getArg args "filter_id"))
  else if name = "create-filter" then
    if !truthy (args "from_email") && !truthy (args "to_email") && !truthy (args "subject")
        && !truthy (args "query") && (args "has_attachment").isNone
        && (args "exclude_chats").isNone && (args "size_comparison").isNone
        && (args "size").isNone && (args "add_label_ids").isNone
        && (args "remove_label_ids").isNone && (args "forward_to").isNone then
      .error "Missing required parameters for creating a filter"
    else
      .invoked (.createFilter (args "from_email") (args "to_email") (args "subject")
        (args "query") (args "has_attachment") (args "exclude_chats")
        (args "size_comparison") (args "size") (args "add_label_ids")
        (args "remove_label_ids") (args "forward_to"))
  else if name = "delete-filter" then
    if !truthy (args "filter_id") then .error "Missing required parameter for deleting a filter"
    else .invoked (.deleteFilter (getArg args "filter_id"))
  else if name = "search-emails" then
    if !truthy (args "query") then .error "Missing required parameter for searching emails"
    else .invoked (.searchEmails (getArg args "query") ((args "max_results").getD (.num 50)))
  else if name = "create-folder" then
    if !truthy (args "name") then .error "Missing required parameter for creating a folder"
    else .invoked (.createFolder (getArg args "name"))
  else if name = "move-to-folder" then
    if !truthy (args "email_id") || !truthy (args "folder_id") then
      .error "Missing required parameters for moving an email to a folder"
    else .invoked (.moveToFolder (getArg args "email_id") (getArg args "folder_id"))
  else if name = "list-folders" then
    .invoked .listFolders
  else .unknown ("Unknown tool: " ++ name)

/-- The JobStackAPI wrapper methods invoked by the job adapter's
dispatcher. -/
inductive JobCall where
  | searchJobs (technologies countries : Option JVal) (maxAgeDays : JVal)
  | getCachedJob (jobId : JVal)

/-- The 3 tool names registered by the job adapter's `handle_list_tools`
(src/theirstack/server.py lines 407-462). -/
def jobToolNames : List String := ["search-jobs", "get-job-details", "analyze-job-match"]

/-- The `required` list of each registered job tool's input schema. -/
def jobRequiredArgs : String → List String
  | "search-jobs" => []
  | "get-job-details" => ["job_id"]
  | "analyze-job-match" => ["job_id"]
  | _ => []

/-- The job adapter's `handle_call_tool` (src/theirstack/server.py lines
464-551), stopped at the wrapper invocation. -/
def dispatchJob (name : String) (args : String → Option JVal) : Outcome JobCall :=
  if name = "search-jobs" then
    .invoked (.searchJobs (args "technologies") (args "countries")
      ((args "max_age_days").getD (.num 7)))
  else if name = "get-job-details" then
    if !truthy (args "job_id") then .error "Missing job_id"
    else .invoked (.getCachedJob (getArg args "job_id"))
  else if name = "analyze-job-match" then
    if !truthy (args "job_id") then .error "Missing job_id"
    else .invoked (.getCachedJob (getArg args "job_id"))
  else .unknown ("Unknown tool: " ++ name)

/-! ## Concrete inputs used by witnesses and counterexamples -/

/-- An argument mapping carrying the three send/draft arguments. -/
def mailArgs (recipient subject body : String) : String → Option JVal := fun k =>
  if k = "recipient_id" then some (.str recipient)
  else if k = "subject" then some (.str subject)
  else if k = "message" then some (.str body)
  else none

/-- The subject-override transformation of the send-email dispatch branch
(src/gmail/server.py lines 1316-1321), as a standalone function of the
supplied subject and body: the pair of the subject and body actually
used. -/
def subjectOverride (subject body : String) : String × String :=
  let emailLines := pySplitLines body
  if pyStartsWith (emailLines.headD "") "Subject:" then
    (pyStrip (pyDrop (emailLines.headD "") 8), pyStrip (pyJoinNl (emailLines.drop 1)))
  else (subject, body)

/-- Response trace with a continuation page that lacks the `'messages'`
key. -/
def keyErrorTrace : List PageResponse :=
  [.ok ⟨some ["m1"], true⟩, .ok ⟨none, false⟩]

/-- Three pages of 10, 10 and 5 items (the spec's pagination example). -/
def pages3 : List (List String) :=
  [["m01", "m02", "m03", "m04", "m05", "m06", "m07", "m08", "m09", "m10"],
   ["m11", "m12", "m13", "m14", "m15", "m16", "m17", "m18", "m19", "m20"],
   ["m21", "m22", "m23", "m24", "m25"]]

/-- A single final page holding two items (more than the requested cap of
one). -/
def overshootTrace : List PageResponse := [.ok ⟨some ["m1", "m2"], false⟩]

/-! ## Theorems -/

/-- C5.  Credential Store acquire(): for every persisted token that is
valid and non-expired at the configured path, `_get_token` performs no
network call (no refresh and no consent flow), returns that token
unchanged, and does not rewrite the token file. -/
theorem getToken_valid_no_effects (t : OAuthToken) (refreshOf : OAuthToken → OAuthToken)
    (consentToken : OAuthToken) (h : t.isValid = true) :
    getToken (some t) refreshOf consentToken = (t, ⟨0, 0, []⟩) := by
  simp [getToken, h]

/-- Witness for C5: a concrete valid non-expired token is returned
unchanged with zero refresh calls, zero consent flows and no file
write. -/
theorem getToken_valid_no_effects_witness :
    (OAuthToken.mk true false true 7).isValid = true ∧
      getToken (some (OAuthToken.mk true false true 7)) (fun t => { t with expired := false })
        (OAuthToken.mk true false false 99) = (OAuthToken.mk true false true 7, ⟨0, 0, []⟩) :=
  ⟨by decide,
    getToken_valid_no_effects (OAuthToken.mk true false true 7)
      (fun t => { t with expired := false }) (OAuthToken.mk true false false 99) (by decide)⟩

/-- C6.  Credential Store acquire(): for every persisted token that is
expired but carries a refresh credential, `_get_token` performs exactly
one refresh call (and no interactive consent flow) and persists the
refreshed token by writing it to the token file before returning it. -/
theorem getToken_expired_refreshes (t : OAuthToken) (refreshOf : OAuthToken → OAuthToken)
    (consentToken : OAuthToken) (hexp : t.expired = true) (href : t.hasRefreshToken = true) :
    getToken (some t) refreshOf consentToken = (refreshOf t, ⟨1, 0, [refreshOf t]⟩) := by
  simp [getToken, OAuthToken.isValid, hexp, href]

/-- Witness for C6: a concrete expired refreshable token is refreshed by
exactly one refresh call and the refreshed token is written back. -/
theorem getToken_expired_refreshes_witness :
    (OAuthToken.mk true true true 3).expired = true ∧
      (OAuthToken.mk true true true 3).hasRefreshToken = true ∧
      getToken (some (OAuthToken.mk true true true 3))
        (fun t => { t with expired := false, tag := t.tag + 1 })
        (OAuthToken.mk true false false 99) =
        (OAuthToken.mk true false true 4, ⟨1, 0, [OAuthToken.mk true false true 4]⟩) :=
  ⟨by decide, by decide,
    getToken_expired_refreshes (OAuthToken.mk true true true 3)
      (fun t => { t with expired := false, tag := t.tag + 1 })
      (OAuthToken.mk true false false 99) (by decide) (by decide)⟩

/-- C10.  For every successful search-jobs call, the returned result's
jobs list is the first 10 processed jobs in provider order (hence at most
10 entries), while total_jobs equals the full count of processed jobs;
when more than 10 jobs are processed, total_jobs exceeds the number of
entries returned. -/
theorem searchJobs_caps_jobs_at_ten {α β : Type} (extract : α → β)
    (technologies countries : Option (List String)) (maxAgeDays : Int)
    (dataJobs : List α)
    (h : 10 < dataJobs.length) :
    (searchJobs extract technologies countries maxAgeDays dataJobs).jobs =
        (dataJobs.map extract).take 10 ∧
      (searchJobs extract technologies countries maxAgeDays dataJobs).jobs.length ≤ 10 ∧
      (searchJobs extract technologies countries maxAgeDays dataJobs).totalJobs =
        dataJobs.length ∧
      (searchJobs extract technologies countries maxAgeDays dataJobs).jobs.length <
        (searchJobs extract technologies countries maxAgeDays dataJobs).totalJobs := by
  refine ⟨rfl, ?_, by simp [searchJobs], ?_⟩
  · simp [searchJobs]
  · simp only [searchJobs, List.length_take, List.length_map]
    omega

/-- Witness for C10: with 11 provider jobs, the result returns 10 entries
while total_jobs reports 11. -/
theorem searchJobs_caps_jobs_at_ten_witness :
    10 < ([0, 1, 2, 3, 4, 5, 6, 7, 8, 9, 10] : List Nat).length ∧
      (searchJobs (fun n => n + 100) none none 7
          ([0, 1, 2, 3, 4, 5, 6, 7, 8, 9, 10] : List Nat)).jobs.length <
        (searchJobs (fun n => n + 100) none none 7
          ([0, 1, 2, 3, 4, 5, 6, 7, 8, 9, 10] : List Nat)).totalJobs :=
  ⟨by decide,
    (searchJobs_caps_jobs_at_ten (fun n => n + 100) none none 7
      [0, 1, 2, 3, 4, 5, 6, 7, 8, 9, 10] (by decide)).2.2.2⟩

/-- C1 counterexample.  The claim asserts move_to_folder performs the move
as two sequential API requests (a label-add call, then a separate
inbox-remove call); on a concrete input the operation's request trace has
exactly one request, not two — the single `messages().modify` call carries
both the label addition and the INBOX removal. -/
theorem moveToFolder_not_two_requests :
    (moveToFolderRequests "email-1" "folder-1").length = 1 ∧
      (moveToFolderRequests "email-1" "folder-1").length ≠ 2 := by
  constructor <;> decide

/-- C1 amended.  move_to_folder issues exactly one API request, a single
`messages().modify` whose body both adds the folder label and removes the
INBOX label; the request is atomic: an execution in which it fails leaves
the label state unchanged, and an execution in which it succeeds both
applies the folder label and removes INBOX — so the claimed partial end
state (folder label applied with INBOX still present) never arises from
any single-request execution on a folder label other than INBOX. -/
theorem moveToFolder_single_atomic_request (emailId folderId : String)
    (labels : List String) (fails : Nat → Bool) (hne : folderId ≠ "INBOX") :
    (moveToFolderRequests emailId folderId).length = 1 ∧
      (fails 0 = true →
        runRequests fails (moveToFolderRequests emailId folderId) 0 labels = labels) ∧
      (fails 0 = false →
        folderId ∈ runRequests fails (moveToFolderRequests emailId folderId) 0 labels ∧
          "INBOX" ∉ runRequests fails (moveToFolderRequests emailId folderId) 0 labels) := by
  refine ⟨rfl, ?_, ?_⟩
  · intro hf
    simp [moveToFolderRequests, runRequests, hf]
  · intro hf
    constructor
    · by_cases hmem : folderId ∈ labels <;>
        simp [moveToFolderRequests, runRequests, hf, applyModify, List.mem_filter,
          List.mem_append, hmem, hne]
    · simp [moveToFolderRequests, runRequests, hf, applyModify, List.mem_filter]

/-- Witness for C1 amended: on a message whose only label is INBOX, a
successful move to folder "Work" ends with the Work label applied and
INBOX absent, via a one-request trace. -/
theorem moveToFolder_single_atomic_request_witness :
    ("Work" : String) ≠ "INBOX" ∧
      (moveToFolderRequests "e1" "Work").length = 1 ∧
      "Work" ∈ runRequests (fun _ => false) (moveToFolderRequests "e1" "Work") 0 ["INBOX"] ∧
      "INBOX" ∉ runRequests (fun _ => false) (moveToFolderRequests "e1" "Work") 0 ["INBOX"] :=
  ⟨by decide,
    (moveToFolder_single_atomic_request "e1" "Work" ["INBOX"] (fun _ => false) (by decide)).1,
    (moveToFolder_single_atomic_request "e1" "Work" ["INBOX"] (fun _ => false)
      (by decide)).2.2 rfl⟩

/-- Helper: the unread-emails continuation loop on an all-successful trace
appends the pages' items in page order. -/
theorem unreadLoop_mkTrace (p : List String) (rest : List (List String)) (acc : List String) :
    unreadLoop (mkTrace (p :: rest)) acc = .msgs (acc ++ (p :: rest).join) := by
  induction rest generalizing p acc with
  | nil => simp [mkTrace, unreadLoop]
  | cons q qs ih => simp [mkTrace, unreadLoop, ih, List.append_assoc]

/-- Helper: the search-by-label continuation loop on an all-successful
trace appends the pages' items in page order. -/
theorem searchByLabelLoop_mkTrace (p : List String) (rest : List (List String))
    (acc : List String) :
    searchByLabelLoop (mkTrace (p :: rest)) acc = .msgs (acc ++ (p :: rest).join) := by
  induction rest generalizing p acc with
  | nil => simp [mkTrace, searchByLabelLoop]
  | cons q qs ih => simp [mkTrace, searchByLabelLoop, ih, List.append_assoc]

/-- C7.  Uncapped list/search operations (get-unread-emails,
search-by-label): for every finite sequence of provider pages where each
page except the last carries a continuation token, the operation follows
the pagination-token loop until the provider reports no further pages and
returns the concatenation of all pages' items in page order. -/
theorem pagination_concatenates_pages (pages : List (List String)) (h : pages ≠ []) :
    getUnreadEmails (mkTrace pages) = .msgs pages.join ∧
      searchByLabel (mkTrace pages) = .msgs pages.join := by
  obtain ⟨p, rest, rfl⟩ := List.exists_cons_of_ne_nil h
  cases rest with
  | nil => constructor <;> simp [mkTrace, getUnreadEmails, searchByLabel]
  | cons q qs =>
    constructor <;>
      simp [mkTrace, getUnreadEmails, searchByLabel, unreadLoop_mkTrace,
        searchByLabelLoop_mkTrace]

/-- Witness for C7: for 3 pages of 10/10/5 items with continuation tokens
on pages 1 and 2 only, both operations return exactly the 25 items in page
order. -/
theorem pagination_concatenates_pages_witness :
    pages3 ≠ [] ∧ getUnreadEmails (mkTrace pages3) = .msgs pages3.join ∧
      searchByLabel (mkTrace pages3) = .msgs pages3.join ∧ pages3.join.length = 25 :=
  ⟨by decide, (pagination_concatenates_pages pages3 (by decide)).1,
    (pagination_concatenates_pages pages3 (by decide)).2, by decide⟩

/-- C3 counterexample.  The claim asserts the wrapper never lets a failure
escape for any reachable remote response shape, naming a pagination
continuation page missing the expected items key; but on a trace whose
second (continuation) page lacks the `'messages'` key,
get_unread_emails raises an uncaught KeyError — only `HttpError` is
caught. -/
theorem getUnread_raises_on_missing_key :
    getUnreadEmails keyErrorTrace = .raisedKeyError := by decide

/-- Helper: if every successful page of the remaining trace carries the
`'messages'` key, the unread-emails continuation loop never raises. -/
theorem unreadLoop_no_keyError (responses : List PageResponse) (acc : List String)
    (h : ∀ r ∈ responses, ∀ pg, r = PageResponse.ok pg → pg.messages ≠ none) :
    unreadLoop responses acc ≠ .raisedKeyError := by
  induction responses generalizing acc with
  | nil => simp [unreadLoop]
  | cons r rest ih =>
    cases r with
    | http e => simp [unreadLoop]
    | ok pg =>
      cases hmsg : pg.messages with
      | none => exact absurd hmsg (h _ (by simp) pg rfl)
      | some ms =>
        cases ht : pg.hasNextPageToken
        · simp [unreadLoop, hmsg, ht]
        · simpa [unreadLoop, hmsg, ht] using
            ih (acc ++ ms) (fun r hr => h r (by simp [hr]))

/-- Helper: same property for the search-by-label continuation loop. -/
theorem searchByLabelLoop_no_keyError (responses : List PageResponse) (acc : List String)
    (h : ∀ r ∈ responses, ∀ pg, r = PageResponse.ok pg → pg.messages ≠ none) :
    searchByLabelLoop responses acc ≠ .raisedKeyError := by
  induction responses generalizing acc with
  | nil => simp [searchByLabelLoop]
  | cons r rest ih =>
    cases r with
    | http e => simp [searchByLabelLoop]
    | ok pg =>
      cases hmsg : pg.messages with
      | none => exact absurd hmsg (h _ (by simp) pg rfl)
      | some ms =>
        cases ht : pg.hasNextPageToken
        · simp [searchByLabelLoop, hmsg, ht]
        · simpa [searchByLabelLoop, hmsg, ht] using
            ih (acc ++ ms) (fun r hr => h r (by simp [hr]))

/-- C3 amended.  The API Client Wrapper catches every HttpError (the
non-success HTTP responses of the backing API) locally and returns an
error-shaped string result, never an unhandled failure; but the no-raise
guarantee does not extend to every reachable response shape: it holds for
get_unread_emails and search_by_label only when every successful
continuation page carries the `'messages'` key (a continuation page
without it raises an uncaught KeyError, as the counterexample shows). -/
theorem wrapper_catches_http_errors (responses : List PageResponse)
    (h : ∀ r ∈ responses.drop 1, ∀ pg, r = PageResponse.ok pg → pg.messages ≠ none) :
    (getUnreadEmails responses ≠ .raisedKeyError ∧
        searchByLabel responses ≠ .raisedKeyError) ∧
      ∀ e rest, responses = .http e :: rest →
        getUnreadEmails responses = .errText ("An HttpError occurred: " ++ e) ∧
          searchByLabel responses = .errText ("An HttpError occurred: " ++ e) := by
  constructor
  · cases responses with
    | nil => constructor <;> simp [getUnreadEmails, searchByLabel]
    | cons r rest =>
      cases r with
      | http e => constructor <;> simp [getUnreadEmails, searchByLabel]
      | ok pg =>
        simp only [List.drop_succ_cons, List.drop_zero] at h
        cases ht : pg.hasNextPageToken
        · constructor <;> simp [getUnreadEmails, searchByLabel, ht]
        · constructor <;>
            simpa [getUnreadEmails, searchByLabel, ht] using
              (by first
                | exact unreadLoop_no_keyError rest _ h
                | exact searchByLabelLoop_no_keyError rest _ h)
  · intro e rest hr
    subst hr
    constructor <;> simp [getUnreadEmails, searchByLabel]

/-- Witness for C3 amended: a trace whose first response is an HttpError
produces the error string, and a well-keyed successful trace raises
nothing. -/
theorem wrapper_catches_http_errors_witness :
    getUnreadEmails [PageResponse.http "HttpError 500"] =
        .errText ("An HttpError occurred: " ++ "HttpError 500") ∧
      searchByLabel [PageResponse.http "HttpError 500"] =
        .errText ("An HttpError occurred: " ++ "HttpError 500") :=
  (wrapper_catches_http_errors [PageResponse.http "HttpError 500"]
    (by simp)).2 "HttpError 500" [] rfl

/-- C8 counterexample.  The claim asserts the successful result of
search_emails contains at most max_results messages for every sequence of
provider pages; but with max_results = 1 and a single (final) provider
page holding two items, the page is appended whole and the result holds
two messages. -/
theorem searchEmails_result_exceeds_cap :
    searchEmails id overshootTrace 1 = .msgs ["m1", "m2"] ∧
      1 < (["m1", "m2"] : List String).length := by
  constructor
  · rfl
  · decide

/-- Helper: the search-emails loop requests no further page once the
accumulated count has reached the cap. -/
theorem searchLoop_stops_at_cap (maxResults : Nat) (responses : List PageResponse)
    (hasToken : Bool) (acc : List String) (h : maxResults ≤ acc.length) :
    searchLoop maxResults responses hasToken acc = .msgs acc := by
  have hlt : ¬(acc.length < maxResults) := Nat.not_lt.mpr h
  cases responses <;> simp [searchLoop, hlt]

/-- Helper: when every successful page holds at most B items, the loop's
successful result holds at most maxResults + B items (or no more than it
started with). -/
theorem searchLoop_length_bound (maxResults B : Nat) (responses : List PageResponse)
    (hasToken : Bool) (acc : List String)
    (hB : ∀ r ∈ responses, ∀ pg, r = PageResponse.ok pg → (pg.messages.getD []).length ≤ B) :
    ∀ l, searchLoop maxResults responses hasToken acc = .msgs l →
      l.length ≤ maxResults + B ∨ l.length ≤ acc.length := by
  induction responses generalizing hasToken acc with
  | nil =>
    intro l hl
    by_cases hg : (hasToken && decide (acc.length < maxResults)) = true
    · simp [searchLoop, hg] at hl
    · simp [searchLoop, hg] at hl
      subst hl
      exact Or.inr le_rfl
  | cons r rest ih =>
    intro l hl
    cases r with
    | http e =>
      by_cases hg : (hasToken && decide (acc.length < maxResults)) = true
      · simp [searchLoop, hg] at hl
      · simp [searchLoop, hg] at hl
        subst hl
        exact Or.inr le_rfl
    | ok pg =>
      by_cases hg : (hasToken && decide (acc.length < maxResults)) = true
      · simp only [searchLoop, if_pos hg] at hl
        have hlt : acc.length < maxResults := by
          have := (Bool.and_eq_true _ _).mp hg
          exact of_decide_eq_true this.2
        have hms : (pg.messages.getD []).length ≤ B := hB _ (by simp) pg rfl
        rcases ih pg.hasNextPageToken (acc ++ pg.messages.getD [])
            (fun r hr => hB r (by simp [hr])) l hl with hcase | hcase
        · exact Or.inl hcase
        · refine Or.inl ?_
          have hlen : (acc ++ pg.messages.getD []).length ≤ maxResults + B := by
            simp only [List.length_append]
            omega
          exact le_trans hcase hlen
      · simp only [searchLoop, if_neg hg] at hl
        cases hl
        exact Or.inr le_rfl

/-- C8 amended.  The search-emails pagination loop stops requesting
further pages as soon as the accumulated count reaches the caller-supplied
max_results cap (with the cap already reached it consumes no response and
returns the accumulated messages unchanged); however, pages are appended
whole, without truncation, so the successful result is only guaranteed to
stay within max_results when each provider page honours the per-request
maximum: in general, when every provider page holds at most B items, the
successful result holds at most max_results + B messages. -/
theorem searchEmails_cap_behaviour (meta : String → String)
    (responses : List PageResponse) (maxResults B : Nat)
    (hB : ∀ r ∈ responses, ∀ pg, r = PageResponse.ok pg → (pg.messages.getD []).length ≤ B) :
    (∀ l, searchEmails meta responses maxResults = .msgs l →
        l.length ≤ maxResults + B) ∧
      ∀ rest hasToken acc, maxResults ≤ List.length acc →
        searchLoop maxResults rest hasToken acc = .msgs acc := by
  constructor
  · intro l hl
    cases responses with
    | nil => simp [searchEmails] at hl
    | cons r rest =>
      cases r with
      | http e => simp [searchEmails] at hl
      | ok pg =>
        rw [searchEmails] at hl
        rcases hrun : searchLoop maxResults rest pg.hasNextPageToken (pg.messages.getD [])
          with ms | s | _ | _ <;> rw [hrun] at hl <;> simp at hl
        subst hl
        have hacc : (pg.messages.getD []).length ≤ B := hB _ (by simp) pg rfl
        rcases searchLoop_length_bound maxResults B rest pg.hasNextPageToken
            (pg.messages.getD []) (fun r hr => hB r (by simp [hr])) ms hrun with hc | hc
        · simpa using hc
        · simp only [List.length_map]
          omega
  · intro rest hasToken acc hge
    exact searchLoop_stops_at_cap maxResults rest hasToken acc hge

/-- Witness for C8 amended: pages of at most 2 items with cap 3 yield a
successful result of at most 5 messages, and a loop entered with the cap
already reached consumes nothing. -/
theorem searchEmails_cap_behaviour_witness :
    searchEmails id [PageResponse.ok ⟨some ["a", "b"], true⟩,
        PageResponse.ok ⟨some ["c", "d"], false⟩] 3 = .msgs ["a", "b", "c", "d"] ∧
      (["a", "b", "c", "d"] : List String).length ≤ 3 + 2 ∧
      searchLoop 3 [PageResponse.ok ⟨some ["e"], true⟩] true ["x", "y", "z"] =
        .msgs ["x", "y", "z"] :=
  ⟨rfl,
    (searchEmails_cap_behaviour id
      [PageResponse.ok ⟨some ["a", "b"], true⟩, PageResponse.ok ⟨some ["c", "d"], false⟩] 3 2
      (by intro r hr pg hpg
          subst hpg
          simp only [List.mem_cons, List.not_mem_nil, or_false] at hr
          rcases hr with h | h <;> (injection h with h2; subst h2; decide))).1
      ["a", "b", "c", "d"] rfl,
    (searchEmails_cap_behaviour id
      [PageResponse.ok ⟨some ["a", "b"], true⟩, PageResponse.ok ⟨some ["c", "d"], false⟩] 3 2
      (by intro r hr pg hpg
          subst hpg
          simp only [List.mem_cons, List.not_mem_nil, or_false] at hr
          rcases hr with h | h <;> (injection h with h2; subst h2; decide))).2
      [PageResponse.ok ⟨some ["e"], true⟩] true ["x", "y", "z"] (by decide)⟩

/-- C4 counterexample.  The claim asserts the subject-line override
applies to both the send-email and the create-draft operations; but for
create-draft with supplied subject "Orig" and body
"Subject: Hello\nBody text" the dispatcher invokes the wrapper with the
supplied subject and the body unchanged — it does not use subject "Hello"
and body "Body text". -/
theorem createDraft_no_subject_override :
    dispatchGmail "create-draft" (mailArgs "r@x.com" "Orig" "Subject: Hello\nBody text") =
        .invoked (.createDraft (.str "r@x.com") (.str "Orig")
          (.str "Subject: Hello\nBody text")) ∧
      ("Orig" : String) ≠ "Hello" := by
  constructor
  · rfl
  · decide

/-- C4 amended.  For the send-email operation only: if the body's first
line starts with "Subject:", that line is stripped, its remainder
(whitespace-trimmed) overrides the supplied subject and the remaining
lines (whitespace-trimmed) become the body; otherwise the supplied
subject and body are used unchanged.  The create-draft operation performs
no such override and always passes the supplied subject and body through
unchanged. -/
theorem sendEmail_subject_override (recipient subject body : String)
    (hr : recipient ≠ "") (hs : subject ≠ "") (hb : body ≠ "") :
    dispatchGmail "send-email" (mailArgs recipient subject body) =
        .invoked (.sendEmail (.str recipient) (.str (subjectOverride subject body).1)
          (.str (subjectOverride subject body).2)) ∧
      dispatchGmail "create-draft" (mailArgs recipient subject body) =
        .invoked (.createDraft (.str recipient) (.str subject) (.str body)) := by
  have hr' : truthy (some (.str recipient)) = true := by simp [truthy, hr]
  have hs' : truthy (some (.str subject)) = true := by simp [truthy, hs]
  have hb' : truthy (some (.str body)) = true := by simp [truthy, hb]
  constructor
  · cases hsw : pyStartsWith ((pySplitLines body).head?.getD "") "Subject:" <;>
      simp [dispatchGmail, mailArgs, getArg, hr', hs', hb', subjectOverride, hsw]
  · simp [dispatchGmail, mailArgs, getArg, hr', hs', hb']

/-- Witness for C4 amended: for body "Subject: Hello\nBody text" the
send-email operation uses subject "Hello" and body "Body text", while
create-draft keeps the supplied subject and body. -/
theorem sendEmail_subject_override_witness :
    dispatchGmail "send-email" (mailArgs "r@x.com" "Greetings" "Subject: Hello\nBody text") =
        .invoked (.sendEmail (.str "r@x.com")
          (.str (subjectOverride "Greetings" "Subject: Hello\nBody text").1)
          (.str (subjectOverride "Greetings" "Subject: Hello\nBody text").2)) ∧
      dispatchGmail "create-draft"
          (mailArgs "r@x.com" "Greetings" "Subject: Hello\nBody text") =
        .invoked (.createDraft (.str "r@x.com") (.str "Greetings")
          (.str "Subject: Hello\nBody text")) ∧
      subjectOverride "Greetings" "Subject: Hello\nBody text" = ("Hello", "Body text") :=
  ⟨(sendEmail_subject_override "r@x.com" "Greetings" "Subject: Hello\nBody text"
      (by decide) (by decide) (by decide)).1,
    (sendEmail_subject_override "r@x.com" "Greetings" "Subject: Hello\nBody text"
      (by decide) (by decide) (by decide)).2,
    by decide⟩

/-- Helper: a missing-or-empty argument value is falsy under Python
truthiness, so the dispatcher's `if not x` check trips on it. -/
theorem missingOrEmpty_not_truthy (v : Option JVal) (h : missingOrEmpty v = true) :
    truthy v = false := by
  rcases v with _ | v
  · rfl
  · cases v <;> simp_all [missingOrEmpty, truthy]

/-- Helper: a precondition-error outcome carries no wrapper invocation. -/
theorem invokedCall_eq_none_of_error {κ : Type} (o : Outcome κ)
    (h : isPreconditionError o = true) : invokedCall o = none := by
  cases o <;> simp_all [isPreconditionError, invokedCall]

/-- C9.  For every tool name not in the fixed registered set, dispatch
fails with the unknown-operation error and no API Client Wrapper method is
invoked, in both the mail adapter and the job adapter. -/
theorem unknown_tool_rejected (name : String) (args : String → Option JVal)
    (hg : name ∉ gmailToolNames) (hj : name ∉ jobToolNames) :
    dispatchGmail name args = .unknown ("Unknown tool: " ++ name) ∧
      invokedCall (dispatchGmail name args) = none ∧
      dispatchJob name args = .unknown ("Unknown tool: " ++ name) ∧
      invokedCall (dispatchJob name args) = none := by
  simp only [gmailToolNames, List.mem_cons, List.mem_singleton, not_or] at hg
  simp only [jobToolNames, List.mem_cons, List.mem_singleton, not_or] at hj
  obtain ⟨g1, g2, g3, g4, g5, g6, g7, g8, g9, g10, g11, g12, g13, g14, g15, g16, g17,
    g18, g19, g20, g21⟩ := hg
  obtain ⟨j1, j2, j3⟩ := hj
  refine ⟨?_, ?_, ?_, ?_⟩ <;>
    simp [dispatchGmail, dispatchJob, invokedCall, g1, g2, g3, g4, g5, g6, g7, g8, g9,
      g10, g11, g12, g13, g14, g15, g16, g17, g18, g19, g20, g21, j1, j2, j3]

/-- Witness for C9: the unregistered name "no-such-tool" is rejected by
both dispatchers without any wrapper invocation. -/
theorem unknown_tool_rejected_witness :
    dispatchGmail "no-such-tool" noArgs = .unknown ("Unknown tool: " ++ "no-such-tool") ∧
      invokedCall (dispatchGmail "no-such-tool" noArgs) = none ∧
      dispatchJob "no-such-tool" noArgs = .unknown ("Unknown tool: " ++ "no-such-tool") ∧
      invokedCall (dispatchJob "no-such-tool" noArgs) = none :=
  unknown_tool_rejected "no-such-tool" noArgs (by decide) (by decide)

/-- C2.  For every registered tool name and every argument mapping in
which some required argument key is absent or has an empty value, dispatch
fails with a precondition error and invokes no API Client Wrapper method —
in the mail adapter and in the job adapter alike. -/
theorem dispatch_validates_required_args (name : String) (args : String → Option JVal) :
    (name ∈ gmailToolNames →
      (∃ k ∈ gmailRequiredArgs name, missingOrEmpty (args k) = true) →
      isPreconditionError (dispatchGmail name args) = true ∧
        invokedCall (dispatchGmail name args) = none) ∧
    (name ∈ jobToolNames →
      (∃ k ∈ jobRequiredArgs name, missingOrEmpty (args k) = true) →
      isPreconditionError (dispatchJob name args) = true ∧
        invokedCall (dispatchJob name args) = none) := by
  constructor
  · intro hmem hmiss
    obtain ⟨k, hk, hbad⟩ := hmiss
    have hf := missingOrEmpty_not_truthy _ hbad
    refine (fun herr => ⟨herr, invokedCall_eq_none_of_error _ herr⟩) ?_
    simp only [gmailToolNames, List.mem_cons, List.not_mem_nil, or_false] at hmem
    rcases hmem with rfl | rfl | rfl | rfl | rfl | rfl | rfl | rfl | rfl | rfl | rfl |
      rfl | rfl | rfl | rfl | rfl | rfl | rfl | rfl | rfl | rfl
    · -- send-email
      simp only [gmailRequiredArgs, List.mem_cons, List.not_mem_nil, or_false] at hk
      rcases hk with rfl | rfl | rfl
      · simp [dispatchGmail, hf, isPreconditionError]
      · cases h1 : truthy (args "recipient_id") <;>
          simp [dispatchGmail, h1, hf, isPreconditionError]
      · cases h1 : truthy (args "recipient_id") <;>
          cases h2 : truthy (args "subject") <;>
          simp [dispatchGmail, h1, h2, hf, isPreconditionError]
    · -- trash-email
      simp only [gmailRequiredArgs, List.mem_cons, List.not_mem_nil, or_false] at hk
      subst hk
      simp [dispatchGmail, hf, isPreconditionError]
    · -- get-unread-emails
      simp [gmailRequiredArgs] at hk
    · -- read-email
      simp only [gmailRequiredArgs, List.mem_cons, List.not_mem_nil, or_false] at hk
      subst hk
      simp [dispatchGmail, hf, isPreconditionError]
    · -- mark-email-as-read
      simp only [gmailRequiredArgs, List.mem_cons, List.not_mem_nil, or_false] at hk
      subst hk
      simp [dispatchGmail, hf, isPreconditionError]
    · -- open-email
      simp only [gmailRequiredArgs, List.mem_cons, List.not_mem_nil, or_false] at hk
      subst hk
      simp [dispatchGmail, hf, isPreconditionError]
    · -- create-draft
      simp only [gmailRequiredArgs, List.mem_cons, List.not_mem_nil, or_false] at hk
      rcases hk with rfl | rfl | rfl <;> simp [dispatchGmail, hf, isPreconditionError]
    · -- list-drafts
      simp [gmailRequiredArgs] at hk
    · -- list-labels
      simp [gmailRequiredArgs] at hk
    · -- create-label
      simp only [gmailRequiredArgs, List.mem_cons, List.not_mem_nil, or_false] at hk
      subst hk
      simp [dispatchGmail, hf, isPreconditionError]
    · -- apply-label
      simp only [gmailRequiredArgs, List.mem_cons, List.not_mem_nil, or_false] at hk
      rcases hk with rfl | rfl <;> simp [dispatchGmail, hf, isPreconditionError]
    · -- remove-label
      simp only [gmailRequiredArgs, List.mem_cons, List.not_mem_nil, or_false] at hk
      rcases hk with rfl | rfl <;> simp [dispatchGmail, hf, isPreconditionError]
    · -- search-by-label
      simp only [gmailRequiredArgs, List.mem_cons, List.not_mem_nil, or_false] at hk
      subst hk
      simp [dispatchGmail, hf, isPreconditionError]
    · -- list-filters
      simp [gmailRequiredArgs] at hk
    · -- get-filter
      simp only [gmailRequiredArgs, List.mem_cons, List.not_mem_nil, or_false] at hk
      subst hk
      simp [dispatchGmail, hf, isPreconditionError]
    · -- create-filter (no required arguments in its schema)
      simp [gmailRequiredArgs] at hk
    · -- delete-filter
      simp only [gmailRequiredArgs, List.mem_cons, List.not_mem_nil, or_false] at hk
      subst hk
      simp [dispatchGmail, hf, isPreconditionError]
    · -- search-emails
      simp only [gmailRequiredArgs, List.mem_cons, List.not_mem_nil, or_false] at hk
      subst hk
      simp [dispatchGmail, hf, isPreconditionError]
    · -- create-folder
      simp only [gmailRequiredArgs, List.mem_cons, List.not_mem_nil, or_false] at hk
      subst hk
      simp [dispatchGmail, hf, isPreconditionError]
    · -- move-to-folder
      simp only [gmailRequiredArgs, List.mem_cons, List.not_mem_nil, or_false] at hk
      rcases hk with rfl | rfl <;> simp [dispatchGmail, hf, isPreconditionError]
    · -- list-folders
      simp [gmailRequiredArgs] at hk
  · intro hmem hmiss
    obtain ⟨k, hk, hbad⟩ := hmiss
    have hf := missingOrEmpty_not_truthy _ hbad
    refine (fun herr => ⟨herr, invokedCall_eq_none_of_error _ herr⟩) ?_
    simp only [jobToolNames, List.mem_cons, List.not_mem_nil, or_false] at hmem
    rcases hmem with rfl | rfl | rfl
    · -- search-jobs (no required arguments)
      simp [jobRequiredArgs] at hk
    · -- get-job-details
      simp only [jobRequiredArgs, List.mem_cons, List.not_mem_nil, or_false] at hk
      subst hk
      simp [dispatchJob, hf, isPreconditionError]
    · -- analyze-job-match
      simp only [jobRequiredArgs, List.mem_cons, List.not_mem_nil, or_false] at hk
      subst hk
      simp [dispatchJob, hf, isPreconditionError]

/-- Witness for C2: calling send-email with no arguments at all fails with
a precondition error and invokes no wrapper method. -/
theorem dispatch_validates_required_args_witness :
    ("send-email" ∈ gmailToolNames ∧ missingOrEmpty (noArgs "recipient_id") = true) ∧
      isPreconditionError (dispatchGmail "send-email" noArgs) = true ∧
      invokedCall (dispatchGmail "send-email" noArgs) = none :=
  ⟨⟨by decide, rfl⟩,
    (dispatch_validates_required_args "send-email" noArgs).1 (by decide)
      ⟨"recipient_id", by decide, rfl⟩ |>.1,
    (dispatch_validates_required_args "send-email" noArgs).1 (by decide)
      ⟨"recipient_id", by decide, rfl⟩ |>.2⟩
